import Mathlib

/-!
Verification development for the AI UI/UX auditor actor.

This file gives a shallow embedding, in Lean, of the multi-provider
AI-response pipeline of the repository: provider selection
(`initializeAIProvider`), prompt construction (`ANALYSIS_PROMPTS`), the
chat-completion retry/backoff loop (`analyzeWithOpenAI`), the native-vision
call (`analyzeWithGemini`), and the normalization of the parsed provider
response into the persisted audit record (`auditResult`).  JavaScript
values relevant to the pipeline are modelled by an inductive `JSValue`
with JavaScript truthiness, so that the source's `x || default` idiom and
property access on parsed JSON objects are embedded faithfully.
-/

/-- A JavaScript value, as needed by the pipeline: `undefined` (absent
property), `null`, booleans, numbers (the responses under study carry
integer scores), strings, and arrays. -/
inductive JSValue where
  | undefined : JSValue
  | null : JSValue
  | bool : Bool → JSValue
  | num : Int → JSValue
  | str : String → JSValue
  | arr : List JSValue → JSValue
  deriving Repr

namespace JSValue

/-- JavaScript truthiness: `undefined`, `null`, `false`, `0`, and the empty
string are falsy; every other value (in particular every array, empty or
not) is truthy. -/
def truthy : JSValue → Bool
  | .undefined => false
  | .null => false
  | .bool b => b
  | .num n => n != 0
  | .str s => s != ""
  | .arr _ => true

/-- The JavaScript `a || b` operator: `a` when `a` is truthy, else `b`. -/
def jsOr (a b : JSValue) : JSValue := if a.truthy then a else b

end JSValue

/-- A parsed JSON object: an association list from property names to
values (the order of insertion is the order of the keys, as in JS). -/
def JSObject : Type := List (String × JSValue)

/-- JavaScript property access `o[k]`: the first binding of `k`, or
`undefined` when the key is absent. -/
def jget (o : JSObject) (k : String) : JSValue :=
  match o.find? (fun p => p.1 = k) with
  | some p => p.2
  | none => .undefined

/-- `k` is a key of the object. -/
def hasKey (o : JSObject) (k : String) : Bool :=
  (o.find? (fun p => p.1 = k)).isSome

/-- JavaScript `String.prototype.startsWith`, on the character data of the
two strings. -/
def jsStartsWith (s pre : String) : Bool := pre.toList.isPrefixOf s.toList

/-- The three provider kinds the resolver can produce
(`type: 'openrouter' | 'openai' | 'gemini'` in the source). -/
inductive ProviderType where
  | openrouter : ProviderType
  | openai : ProviderType
  | gemini : ProviderType
  deriving Repr, DecidableEq

/-- The provider handle returned by `initializeAIProvider`: the detected
kind and, when the source object carries one, the `model` field.  The
handle for the Gemini kind is constructed without a `model` property in
the source, hence `Option String`. -/
structure ProviderHandle where
  type : ProviderType
  model : Option String
  deriving Repr, DecidableEq

/-- `initializeAIProvider(apiKey)` from the main crawler: rejects a falsy
(empty) key, then classifies by prefix in source order — `sk-or-` is
OpenRouter (model `openai/gpt-4o-mini`), `sk-` is OpenAI (model `gpt-4o`),
`AIza` is Gemini (no model property on the handle) — and otherwise throws
the invalid-format error.  Thrown errors are embedded as `Except.error`
carrying the message. -/
def initializeAIProvider (apiKey : String) : Except String ProviderHandle :=
  if apiKey = "" then
    .error "API Key is required. Please provide your OpenAI, OpenRouter, or Gemini API key."
  else if jsStartsWith apiKey "sk-or-" then
    .ok { type := .openrouter, model := some "openai/gpt-4o-mini" }
  else if jsStartsWith apiKey "sk-" then
    .ok { type := .openai, model := some "gpt-4o" }
  else if jsStartsWith apiKey "AIza" then
    .ok { type := .gemini, model := none }
  else
    .error "Invalid API key format. Please provide a valid OpenAI (sk-...), OpenRouter (sk-or-...), or Gemini (AIza...) API key."

/-- The invalid-credential-format error message of the resolver. -/
def invalidKeyFormatMsg : String :=
  "Invalid API key format. Please provide a valid OpenAI (sk-...), OpenRouter (sk-or-...), or Gemini (AIza...) API key."

/-- The model identifier fixed inside `analyzeWithGemini` when it creates
the generative model (`client.getGenerativeModel({model: ...})`); it is
not stored on the provider handle. -/
def geminiCallModel : String := "gemini-1.5-flash-latest"

/-- C2: every credential starting with the specific OpenRouter prefix
`sk-or-` (which textually also starts with the generic `sk-`) resolves to
the OpenRouter kind, never the generic OpenAI kind: the more specific
prefix is tested first. -/
theorem c2_skor_resolves_to_openrouter (apiKey : String)
    (h : jsStartsWith apiKey "sk-or-" = true) :
    initializeAIProvider apiKey =
      .ok { type := .openrouter, model := some "openai/gpt-4o-mini" } := by
  have hne : apiKey ≠ "" := by
    intro he
    subst he
    simp [jsStartsWith, List.isPrefixOf] at h
  unfold initializeAIProvider
  rw [if_neg hne, if_pos h]

/-- Witness for C2 at the concrete credential `sk-or-v1-abc`. -/
theorem c2_skor_resolves_to_openrouter_witness :
    jsStartsWith "sk-or-v1-abc" "sk-or-" = true ∧
      initializeAIProvider "sk-or-v1-abc" =
        .ok { type := .openrouter, model := some "openai/gpt-4o-mini" } :=
  ⟨by decide, c2_skor_resolves_to_openrouter "sk-or-v1-abc" (by decide)⟩

/-- C3: every non-empty credential starting with none of the recognized
prefixes (`sk-or-`, `sk-`, `AIza`) makes the resolver fail with the
invalid-credential-format error, returning no handle. -/
theorem c3_unrecognized_key_rejected (apiKey : String)
    (hne : apiKey ≠ "")
    (h1 : jsStartsWith apiKey "sk-or-" = false)
    (h2 : jsStartsWith apiKey "sk-" = false)
    (h3 : jsStartsWith apiKey "AIza" = false) :
    initializeAIProvider apiKey = .error invalidKeyFormatMsg := by
  unfold initializeAIProvider
  rw [if_neg hne, if_neg (by simp [h1]), if_neg (by simp [h2]), if_neg (by simp [h3])]
  rfl

/-- Witness for C3 at the concrete credential `hf_token_123`. -/
theorem c3_unrecognized_key_rejected_witness :
    ("hf_token_123" ≠ "" ∧ jsStartsWith "hf_token_123" "sk-or-" = false ∧
        jsStartsWith "hf_token_123" "sk-" = false ∧
        jsStartsWith "hf_token_123" "AIza" = false) ∧
      initializeAIProvider "hf_token_123" = .error invalidKeyFormatMsg :=
  ⟨⟨by decide, by decide, by decide, by decide⟩,
    c3_unrecognized_key_rejected "hf_token_123" (by decide) (by decide)
      (by decide) (by decide)⟩

/-- C9 counterexample: the claim says every handle carries a `model`
field, in particular the Gemini handle; but for the concrete credential
`AIzaSyTest` the resolver returns the Gemini handle with no `model`
property at all. -/
theorem c9_counterexample :
    initializeAIProvider "AIzaSyTest" = .ok { type := .gemini, model := none } := by
  rfl

/-- C9 (amended): every handle returned by `initializeAIProvider` has a
kind consistent with the credential's detected prefix, and the OpenRouter
and OpenAI handles carry the model identifiers `openai/gpt-4o-mini` and
`gpt-4o`; the Gemini handle, produced for `AIza`-prefixed credentials,
carries no model field — the Gemini model identifier
`gemini-1.5-flash-latest` is instead fixed inside `analyzeWithGemini`. -/
theorem c9_handle_consistent_with_detected_prefix (apiKey : String)
    (handle : ProviderHandle)
    (h : initializeAIProvider apiKey = .ok handle) :
    (jsStartsWith apiKey "sk-or-" = true →
        handle = { type := .openrouter, model := some "openai/gpt-4o-mini" }) ∧
      (jsStartsWith apiKey "sk-or-" = false → jsStartsWith apiKey "sk-" = true →
        handle = { type := .openai, model := some "gpt-4o" }) ∧
      (jsStartsWith apiKey "sk-" = false → jsStartsWith apiKey "AIza" = true →
        handle = { type := .gemini, model := none }) ∧
      geminiCallModel = "gemini-1.5-flash-latest" := by
  have hmono : jsStartsWith apiKey "sk-or-" = true → jsStartsWith apiKey "sk-" = true := by
    unfold jsStartsWith
    intro hp
    rw [List.isPrefixOf_iff_prefix] at hp ⊢
    exact List.IsPrefix.trans (by decide) hp
  unfold initializeAIProvider at h
  split_ifs at h with he hor hsk hai
  · injection h with h
    refine ⟨fun _ => h.symm, fun h1 _ => absurd hor (by simp [h1]),
      fun h2 _ => absurd (hmono hor) (by simp [h2]), rfl⟩
  · injection h with h
    refine ⟨fun h1 => absurd h1 hor, fun _ _ => h.symm,
      fun h2 _ => absurd hsk (by simp [h2]), rfl⟩
  · injection h with h
    refine ⟨fun h1 => absurd h1 hor, fun _ h2 => absurd h2 hsk,
      fun _ _ => h.symm, rfl⟩

/-- Witness for C9 (amended) at the concrete credential `AIzaSyTest`. -/
theorem c9_handle_consistent_with_detected_prefix_witness :
    initializeAIProvider "AIzaSyTest" =
        .ok { type := .gemini, model := none } ∧
      ({ type := .gemini, model := (none : Option String) } : ProviderHandle).model = none :=
  ⟨by rfl,
    by
      have h := c9_handle_consistent_with_detected_prefix "AIzaSyTest"
        { type := .gemini, model := none } (by rfl)
      have := h.2.2.1 (by decide) (by decide)
      simp⟩

/-- The `general` entry of `ANALYSIS_PROMPTS`. -/
def generalPrompt : String :=
  "You are a world-class UI/UX Designer. Analyze this website screenshot and evaluate:\n- Overall visual aesthetics and design quality\n- Layout and visual hierarchy\n- Typography and readability\n- Color scheme effectiveness\n- User experience and usability\n- First impression impact\n\nProvide a comprehensive analysis."

/-- The `accessibility` entry of `ANALYSIS_PROMPTS`. -/
def accessibilityPrompt : String :=
  "You are a WCAG accessibility expert. Analyze this website screenshot for:\n- Color contrast ratios (text vs background)\n- Button and touch target sizes\n- Visual clarity for screen readers\n- Font sizes and readability\n- Accessible color combinations\n- Inclusive design patterns\n\nFocus on visual accessibility issues."

/-- The `conversion` entry of `ANALYSIS_PROMPTS`. -/
def conversionPrompt : String :=
  "You are a Conversion Rate Optimization (CRO) expert. Analyze this website for:\n- Call-to-action (CTA) visibility and effectiveness\n- Trust signals and social proof\n- User friction points\n- Value proposition clarity\n- Visual persuasion elements\n- Conversion funnel clarity\n\nIdentify barriers to conversion."

/-- The `performance` entry of `ANALYSIS_PROMPTS`. -/
def performancePrompt : String :=
  "You are a web performance expert. Analyze this screenshot for visual indicators of:\n- Image optimization opportunities\n- Perceived load performance\n- Layout shift indicators\n- Above-the-fold optimization\n- Visual weight and bloat\n- Mobile performance considerations\n\nFocus on visual performance signals."

/-- The `seo` entry of `ANALYSIS_PROMPTS`. -/
def seoPrompt : String :=
  "You are an SEO expert. Analyze this screenshot for visible on-page SEO elements:\n- Heading structure and hierarchy (H1-H6)\n- Content organization and scannability\n- Visual content structure\n- Keyword prominence\n- Meta content visibility\n- User engagement elements\n\nFocus on visually detectable SEO factors."

/-- The `mobile-first` entry of `ANALYSIS_PROMPTS`. -/
def mobileFirstPrompt : String :=
  "You are a mobile UX specialist. Analyze this screenshot for:\n- Mobile-first design principles\n- Touch-friendly interface elements\n- Responsive design patterns\n- Mobile navigation effectiveness\n- Thumb-friendly zones\n- Screen real estate usage\n\nEvaluate mobile user experience."

/-- The `brand-consistency` entry of `ANALYSIS_PROMPTS`. -/
def brandConsistencyPrompt : String :=
  "You are a brand identity expert. Analyze this screenshot for:\n- Color palette consistency and harmony\n- Typography hierarchy and selection\n- Visual brand elements\n- Design system consistency\n- Brand personality expression\n- Visual coherence\n\nExtract color palette and evaluate brand design."

/-- The `ANALYSIS_PROMPTS` object: property lookup over its seven keys
(`undefined`, i.e. `none`, for any other key). -/
def ANALYSIS_PROMPTS (key : String) : Option String :=
  if key = "general" then some generalPrompt
  else if key = "accessibility" then some accessibilityPrompt
  else if key = "conversion" then some conversionPrompt
  else if key = "performance" then some performancePrompt
  else if key = "seo" then some seoPrompt
  else if key = "mobile-first" then some mobileFirstPrompt
  else if key = "brand-consistency" then some brandConsistencyPrompt
  else none

/-- The seven defined audit-category tags, in source order. -/
def definedCategories : List String :=
  ["general", "accessibility", "conversion", "performance", "seo",
    "mobile-first", "brand-consistency"]

/-- `ANALYSIS_PROMPTS[analysisType] || ANALYSIS_PROMPTS.general`, the prompt
selection performed by both `analyzeWithOpenAI` and `analyzeWithGemini`:
an absent key yields `undefined`, which is falsy, and a present key yields
its string, kept when truthy (non-empty). -/
def promptFor (analysisType : String) : String :=
  match ANALYSIS_PROMPTS analysisType with
  | some p => if p = "" then generalPrompt else p
  | none => generalPrompt

set_option maxRecDepth 8192 in
/-- C8: any category tag outside the seven defined values selects the same
instruction as `general`, and each of the seven defined categories maps
to a fixed non-empty instruction distinct from at least one other
category's instruction. -/
theorem c8_prompt_fallback_and_distinct :
    (∀ t : String, t ∉ definedCategories → promptFor t = promptFor "general") ∧
      (∀ t ∈ definedCategories, promptFor t ≠ "" ∧
        ∃ u ∈ definedCategories, promptFor u ≠ promptFor t) := by
  constructor
  · intro t ht
    simp only [definedCategories, List.mem_cons, List.not_mem_nil, or_false,
      not_or] at ht
    obtain ⟨h1, h2, h3, h4, h5, h6, h7⟩ := ht
    simp [promptFor, ANALYSIS_PROMPTS, h1, h2, h3, h4, h5, h6, h7]
  · decide

/-- Witness for C8 at the concrete undefined tag `security`. -/
theorem c8_prompt_fallback_and_distinct_witness :
    ("security" ∉ definedCategories ∧
        promptFor "security" = promptFor "general") ∧
      ("seo" ∈ definedCategories ∧ promptFor "seo" ≠ "" ∧
        ∃ u ∈ definedCategories, promptFor u ≠ promptFor "seo") :=
  ⟨⟨by decide, c8_prompt_fallback_and_distinct.1 "security" (by decide)⟩,
    ⟨by decide, c8_prompt_fallback_and_distinct.2 "seo" (by decide)⟩⟩

/-- One attempt's interaction with the provider SDK inside the `try` block
of `analyzeWithOpenAI`: the call either throws an error carrying a message
or returns the message content text (which is then fed to `JSON.parse`
inside the same `try`). -/
inductive AttemptOutcome where
  | throwErr : String → AttemptOutcome
  | content : String → AttemptOutcome

/-- Substring test on character lists, the semantics of JavaScript
`String.prototype.includes`. -/
def listIncludes (hay needle : List Char) : Bool :=
  needle.isPrefixOf hay ||
    match hay with
    | [] => false
    | _ :: t => listIncludes t needle

/-- JavaScript `s.includes(sub)`. -/
def strIncludes (s sub : String) : Bool := listIncludes s.toList sub.toList

/-- The rate-limit classification of `analyzeWithOpenAI`:
`error.message?.includes('429') || error.message?.includes('rate limit')`. -/
def isRateLimitMsg (msg : String) : Bool :=
  strIncludes msg "429" || strIncludes msg "rate limit"

/-- How an invocation fails: `thrown` is an error rethrown out of the
`catch` block (non-rate-limit classification, including `JSON.parse`
failures) or thrown with no handler at all; `exhausted` is the final
`throw new Error(...)` after the retry loop ends. -/
inductive InvokeError where
  | thrown : String → InvokeError
  | exhausted : String → InvokeError

/-- The observable behaviour of one invocation: its result, the number of
provider calls made, and the backoff sleeps (milliseconds) in order. -/
structure RunTrace where
  result : Except InvokeError JSValue
  calls : Nat
  sleepsMs : List Nat

/-- `const maxRetries = 3` in `analyzeWithOpenAI`. -/
def maxRetries : Nat := 3

/-- The message of the error thrown after exhausting the retry loop:
`API failed after ${maxRetries} attempts. Last error: ${lastError?.message}`. -/
def transientFailureMsg (lastMsg : String) : String :=
  "API failed after " ++ toString maxRetries ++ " attempts. Last error: " ++ lastMsg

/-- The outcome of the `try` block body of one attempt: the provider call
result, with a returned content text passed through `JSON.parse`
(modelled by `parse`, the platform JSON parser, which yields either a
value or a SyntaxError message). -/
def attemptResult (parse : String → Except String JSValue)
    (provider : Nat → AttemptOutcome) (attempt : Nat) : Except String JSValue :=
  match provider attempt with
  | .throwErr m => .error m
  | .content text => parse text

/-- The retry loop of `analyzeWithOpenAI`
(`for (let attempt = 1; attempt <= maxRetries; attempt++)`), with the
remaining number of iterations as `fuel`: a successful attempt returns the
parsed value; a caught error classified as rate-limit sleeps
`Math.pow(2, attempt) * 1000` milliseconds and continues (also after the
last attempt, before falling out of the loop); any other caught error is
rethrown at once.  Falling out of the loop throws the transient-failure
error wrapping the last error's message. -/
def analyzeAttempts (parse : String → Except String JSValue)
    (provider : Nat → AttemptOutcome) :
    Nat → Nat → String → RunTrace
  | _, 0, lastMsg =>
    { result := .error (.exhausted (transientFailureMsg lastMsg)),
      calls := 0, sleepsMs := [] }
  | attempt, fuel + 1, _ =>
    match attemptResult parse provider attempt with
    | .ok v => { result := .ok v, calls := 1, sleepsMs := [] }
    | .error m =>
      if isRateLimitMsg m then
        let rest := analyzeAttempts parse provider (attempt + 1) fuel m
        { result := rest.result, calls := rest.calls + 1,
          sleepsMs := (2 ^ attempt * 1000) :: rest.sleepsMs }
      else
        { result := .error (.thrown m), calls := 1, sleepsMs := [] }

/-- `analyzeWithOpenAI`: the retry loop starting at attempt 1 with
`maxRetries` iterations available (the initial last-error message is
irrelevant: the loop body always runs at least once). -/
def analyzeWithOpenAI (parse : String → Except String JSValue)
    (provider : Nat → AttemptOutcome) : RunTrace :=
  analyzeAttempts parse provider 1 maxRetries ""

/-- `analyzeWithGemini`: a single provider call with no retry loop; a
thrown SDK error or a `JSON.parse` failure propagates directly. -/
def analyzeWithGemini (parse : String → Except String JSValue)
    (callOutcome : AttemptOutcome) : RunTrace :=
  match callOutcome with
  | .throwErr m => { result := .error (.thrown m), calls := 1, sleepsMs := [] }
  | .content text =>
    match parse text with
    | .ok v => { result := .ok v, calls := 1, sleepsMs := [] }
    | .error m => { result := .error (.thrown m), calls := 1, sleepsMs := [] }

theorem analyzeAttempts_zero (parse : String → Except String JSValue)
    (provider : Nat → AttemptOutcome) (attempt : Nat) (lastMsg : String) :
    analyzeAttempts parse provider attempt 0 lastMsg =
      { result := .error (.exhausted (transientFailureMsg lastMsg)),
        calls := 0, sleepsMs := [] } := rfl

theorem analyzeAttempts_succ_ok {parse : String → Except String JSValue}
    {provider : Nat → AttemptOutcome} {attempt fuel : Nat} {lastMsg : String}
    {v : JSValue} (h : attemptResult parse provider attempt = .ok v) :
    analyzeAttempts parse provider attempt (fuel + 1) lastMsg =
      { result := .ok v, calls := 1, sleepsMs := [] } := by
  conv_lhs => unfold analyzeAttempts
  simp only [h]

theorem analyzeAttempts_succ_rl {parse : String → Except String JSValue}
    {provider : Nat → AttemptOutcome} {attempt fuel : Nat} {lastMsg : String}
    {m : String} (h : attemptResult parse provider attempt = .error m)
    (hrl : isRateLimitMsg m = true) :
    analyzeAttempts parse provider attempt (fuel + 1) lastMsg =
      { result := (analyzeAttempts parse provider (attempt + 1) fuel m).result,
        calls := (analyzeAttempts parse provider (attempt + 1) fuel m).calls + 1,
        sleepsMs :=
          (2 ^ attempt * 1000) ::
            (analyzeAttempts parse provider (attempt + 1) fuel m).sleepsMs } := by
  conv_lhs => unfold analyzeAttempts
  simp only [h, hrl]
  simp

theorem analyzeAttempts_succ_throw {parse : String → Except String JSValue}
    {provider : Nat → AttemptOutcome} {attempt fuel : Nat} {lastMsg : String}
    {m : String} (h : attemptResult parse provider attempt = .error m)
    (hrl : isRateLimitMsg m = false) :
    analyzeAttempts parse provider attempt (fuel + 1) lastMsg =
      { result := .error (.thrown m), calls := 1, sleepsMs := [] } := by
  conv_lhs => unfold analyzeAttempts
  simp only [h, hrl]
  simp

/-- C1: for the chat-completion shape, `analyzeWithOpenAI` makes up to 3
attempts: a provider that rate-limits twice then succeeds yields success
on the 3rd attempt after sleeping 2s then 4s; a non-rate-limit error on
the 1st attempt is rethrown at once with no further attempt and no
backoff sleep; a provider that rate-limits on all 3 attempts makes the
call fail with the transient error wrapping the last underlying error's
message. -/
theorem c1_retry_policy (parse : String → Except String JSValue)
    (provider : Nat → AttemptOutcome) :
    (∀ m1 m2 v t, provider 1 = .throwErr m1 → provider 2 = .throwErr m2 →
      isRateLimitMsg m1 = true → isRateLimitMsg m2 = true →
      provider 3 = .content t → parse t = .ok v →
      analyzeWithOpenAI parse provider =
        { result := .ok v, calls := 3, sleepsMs := [2000, 4000] }) ∧
    (∀ m, provider 1 = .throwErr m → isRateLimitMsg m = false →
      analyzeWithOpenAI parse provider =
        { result := .error (.thrown m), calls := 1, sleepsMs := [] }) ∧
    (∀ m1 m2 m3, provider 1 = .throwErr m1 → provider 2 = .throwErr m2 →
      provider 3 = .throwErr m3 →
      isRateLimitMsg m1 = true → isRateLimitMsg m2 = true →
      isRateLimitMsg m3 = true →
      analyzeWithOpenAI parse provider =
        { result := .error (.exhausted (transientFailureMsg m3)), calls := 3,
          sleepsMs := [2000, 4000, 8000] }) := by
  refine ⟨?_, ?_, ?_⟩
  · intro m1 m2 v t h1 h2 hr1 hr2 h3 hp
    have a1 : attemptResult parse provider 1 = .error m1 := by
      simp [attemptResult, h1]
    have a2 : attemptResult parse provider 2 = .error m2 := by
      simp [attemptResult, h2]
    have a3 : attemptResult parse provider 3 = .ok v := by
      simp [attemptResult, h3, hp]
    have e3 : analyzeAttempts parse provider 3 1 m2 =
        { result := .ok v, calls := 1, sleepsMs := [] } :=
      @analyzeAttempts_succ_ok parse provider 3 0 m2 v a3
    have e2 : analyzeAttempts parse provider 2 2 m1 =
        { result := .ok v, calls := 2, sleepsMs := [4000] } :=
      (@analyzeAttempts_succ_rl parse provider 2 1 m1 m2 a2 hr2).trans
        (by rw [e3]; norm_num)
    exact (@analyzeAttempts_succ_rl parse provider 1 2 "" m1 a1 hr1).trans
      (by rw [e2]; norm_num)
  · intro m h1 hr1
    have a1 : attemptResult parse provider 1 = .error m := by
      simp [attemptResult, h1]
    exact @analyzeAttempts_succ_throw parse provider 1 2 "" m a1 hr1
  · intro m1 m2 m3 h1 h2 h3 hr1 hr2 hr3
    have a1 : attemptResult parse provider 1 = .error m1 := by
      simp [attemptResult, h1]
    have a2 : attemptResult parse provider 2 = .error m2 := by
      simp [attemptResult, h2]
    have a3 : attemptResult parse provider 3 = .error m3 := by
      simp [attemptResult, h3]
    have e3 : analyzeAttempts parse provider 3 1 m2 =
        { result := .error (.exhausted (transientFailureMsg m3)), calls := 1,
          sleepsMs := [8000] } :=
      (@analyzeAttempts_succ_rl parse provider 3 0 m2 m3 a3 hr3).trans
        (by rw [analyzeAttempts_zero]; norm_num)
    have e2 : analyzeAttempts parse provider 2 2 m1 =
        { result := .error (.exhausted (transientFailureMsg m3)), calls := 2,
          sleepsMs := [4000, 8000] } :=
      (@analyzeAttempts_succ_rl parse provider 2 1 m1 m2 a2 hr2).trans
        (by rw [e3]; norm_num)
    exact (@analyzeAttempts_succ_rl parse provider 1 2 "" m1 a1 hr1).trans
      (by rw [e2]; norm_num)

/-- A SyntaxError message as produced by the platform `JSON.parse` on
unparseable input; it contains no rate-limit indicator. -/
def wParseErrMsg : String := "Unexpected token n in JSON at position 0"

/-- A concrete parse model for witnesses: one recognized text, everything
else a parse failure. -/
def wParse : String → Except String JSValue :=
  fun text => if text = "valid json" then .ok (.num 8) else .error wParseErrMsg

/-- A concrete provider for witnesses that rate-limits twice then returns
parseable content. -/
def wProviderRL : Nat → AttemptOutcome :=
  fun attempt =>
    if attempt = 1 then .throwErr "429 Too Many Requests"
    else if attempt = 2 then .throwErr "rate limit exceeded"
    else .content "valid json"

/-- Witness for C1: the twice-rate-limited provider succeeds on the 3rd
call with backoff sleeps of 2s and 4s. -/
theorem c1_retry_policy_witness :
    (wProviderRL 1 = .throwErr "429 Too Many Requests" ∧
        wProviderRL 2 = .throwErr "rate limit exceeded" ∧
        isRateLimitMsg "429 Too Many Requests" = true ∧
        isRateLimitMsg "rate limit exceeded" = true ∧
        wProviderRL 3 = .content "valid json" ∧
        wParse "valid json" = .ok (.num 8)) ∧
      analyzeWithOpenAI wParse wProviderRL =
        { result := .ok (.num 8), calls := 3, sleepsMs := [2000, 4000] } :=
  ⟨⟨rfl, rfl, by decide, by decide, rfl, rfl⟩,
    (c1_retry_policy wParse wProviderRL).1 "429 Too Many Requests"
      "rate limit exceeded" (.num 8) "valid json" rfl rfl (by decide)
      (by decide) rfl rfl⟩

/-- C4: for both call shapes, a provider response whose text does not
parse as JSON makes the invocation fail with the parse error (the
malformed-response failure) after exactly one provider call: the chat
completion loop rethrows it without a second attempt (the platform parse
error message carries no rate-limit indicator, the hypothesis below), and
the native-vision shape has no retry at all. -/
theorem c4_malformed_response_not_retried
    (parse : String → Except String JSValue)
    (provider : Nat → AttemptOutcome) :
    (∀ t pmsg, provider 1 = .content t → parse t = .error pmsg →
      isRateLimitMsg pmsg = false →
      analyzeWithOpenAI parse provider =
        { result := .error (.thrown pmsg), calls := 1, sleepsMs := [] }) ∧
    (∀ t pmsg, parse t = .error pmsg →
      analyzeWithGemini parse (.content t) =
        { result := .error (.thrown pmsg), calls := 1, sleepsMs := [] }) := by
  constructor
  · intro t pmsg h1 hp hrl
    have a1 : attemptResult parse provider 1 = .error pmsg := by
      simp [attemptResult, h1, hp]
    exact @analyzeAttempts_succ_throw parse provider 1 2 "" pmsg a1 hrl
  · intro t pmsg hp
    simp [analyzeWithGemini, hp]

/-- A concrete provider for witnesses that always returns unparseable
content. -/
def wProviderBadJson : Nat → AttemptOutcome := fun _ => .content "not json"

/-- Witness for C4: unparseable content fails after exactly one call in
both shapes. -/
theorem c4_malformed_response_not_retried_witness :
    (wProviderBadJson 1 = .content "not json" ∧
        wParse "not json" = .error wParseErrMsg ∧
        isRateLimitMsg wParseErrMsg = false) ∧
      analyzeWithOpenAI wParse wProviderBadJson =
        { result := .error (.thrown wParseErrMsg), calls := 1, sleepsMs := [] } ∧
      analyzeWithGemini wParse (.content "not json") =
        { result := .error (.thrown wParseErrMsg), calls := 1, sleepsMs := [] } :=
  ⟨⟨rfl, rfl, by decide⟩,
    (c4_malformed_response_not_retried wParse wProviderBadJson).1 "not json"
      wParseErrMsg rfl rfl (by decide),
    (c4_malformed_response_not_retried wParse wProviderBadJson).2 "not json"
      wParseErrMsg rfl⟩

/-- The six AI-analysis fields of the `auditResult` record built by the
main-crawler revision that persists plain key names: each field is
`aiResult.<key> || <default>` with the source's defaults (`0`,
`'No summary available'`, and `[]` for the four list fields). -/
def auditResultAiFields (aiResult : JSObject) : JSObject :=
  [("score", JSValue.jsOr (jget aiResult "score") (.num 0)),
    ("summary", JSValue.jsOr (jget aiResult "summary") (.str "No summary available")),
    ("color_palette", JSValue.jsOr (jget aiResult "color_palette") (.arr [])),
    ("design_flaws", JSValue.jsOr (jget aiResult "design_flaws") (.arr [])),
    ("positive_aspects", JSValue.jsOr (jget aiResult "positive_aspects") (.arr [])),
    ("recommendations", JSValue.jsOr (jget aiResult "recommendations") (.arr []))]

/-- The six AI-analysis fields of the comprehensive `auditResult` record
built by the main-crawler revision shipping the dashboard: the same
defaulting expressions, but persisted under the key names
`overall_score`, `ai_summary`, and `ai_recommendations` for three of the
six fields. -/
def comprehensiveAuditResultAiFields (aiResult : JSObject) : JSObject :=
  [("overall_score", JSValue.jsOr (jget aiResult "score") (.num 0)),
    ("ai_summary", JSValue.jsOr (jget aiResult "summary") (.str "No summary available")),
    ("color_palette", JSValue.jsOr (jget aiResult "color_palette") (.arr [])),
    ("design_flaws", JSValue.jsOr (jget aiResult "design_flaws") (.arr [])),
    ("positive_aspects", JSValue.jsOr (jget aiResult "positive_aspects") (.arr [])),
    ("ai_recommendations", JSValue.jsOr (jget aiResult "recommendations") (.arr []))]

/-- The six canonical AI-analysis key names. -/
def auditFieldKeys : List String :=
  ["score", "summary", "color_palette", "design_flaws", "positive_aspects",
    "recommendations"]

theorem auditFields_get_score (r : JSObject) :
    jget (auditResultAiFields r) "score" =
      JSValue.jsOr (jget r "score") (.num 0) := rfl

theorem auditFields_get_summary (r : JSObject) :
    jget (auditResultAiFields r) "summary" =
      JSValue.jsOr (jget r "summary") (.str "No summary available") := rfl

theorem auditFields_get_color_palette (r : JSObject) :
    jget (auditResultAiFields r) "color_palette" =
      JSValue.jsOr (jget r "color_palette") (.arr []) := rfl

theorem auditFields_get_design_flaws (r : JSObject) :
    jget (auditResultAiFields r) "design_flaws" =
      JSValue.jsOr (jget r "design_flaws") (.arr []) := rfl

theorem auditFields_get_positive_aspects (r : JSObject) :
    jget (auditResultAiFields r) "positive_aspects" =
      JSValue.jsOr (jget r "positive_aspects") (.arr []) := rfl

theorem auditFields_get_recommendations (r : JSObject) :
    jget (auditResultAiFields r) "recommendations" =
      JSValue.jsOr (jget r "recommendations") (.arr []) := rfl

/-- C5: for every parsed provider response, the normalized record has all
six fields present; any field absent from the raw response gets its
type-appropriate default; and a response missing exactly `color_palette`,
`design_flaws`, and `recommendations` (the other three present with valid
values) gets empty-sequence defaults for exactly those three while the
other three are preserved. -/
theorem c5_normalization_defaults :
    (∀ r : JSObject, ∀ k ∈ auditFieldKeys,
      hasKey (auditResultAiFields r) k = true) ∧
    (∀ r : JSObject,
      (jget r "score" = .undefined →
        jget (auditResultAiFields r) "score" = .num 0) ∧
      (jget r "summary" = .undefined →
        jget (auditResultAiFields r) "summary" = .str "No summary available") ∧
      (jget r "color_palette" = .undefined →
        jget (auditResultAiFields r) "color_palette" = .arr []) ∧
      (jget r "design_flaws" = .undefined →
        jget (auditResultAiFields r) "design_flaws" = .arr []) ∧
      (jget r "positive_aspects" = .undefined →
        jget (auditResultAiFields r) "positive_aspects" = .arr []) ∧
      (jget r "recommendations" = .undefined →
        jget (auditResultAiFields r) "recommendations" = .arr [])) ∧
    (∀ (r : JSObject) (n : Int) (s : String) (pa : List JSValue),
      jget r "score" = .num n → 1 ≤ n → n ≤ 10 →
      jget r "summary" = .str s → s ≠ "" →
      jget r "positive_aspects" = .arr pa →
      jget r "color_palette" = .undefined →
      jget r "design_flaws" = .undefined →
      jget r "recommendations" = .undefined →
      auditResultAiFields r =
        [("score", .num n), ("summary", .str s), ("color_palette", .arr []),
          ("design_flaws", .arr []), ("positive_aspects", .arr pa),
          ("recommendations", .arr [])]) := by
  refine ⟨?_, ?_, ?_⟩
  · intro r k hk
    simp only [auditFieldKeys, List.mem_cons, List.not_mem_nil, or_false] at hk
    rcases hk with rfl | rfl | rfl | rfl | rfl | rfl <;> rfl
  · intro r
    refine ⟨fun h => ?_, fun h => ?_, fun h => ?_, fun h => ?_, fun h => ?_,
      fun h => ?_⟩ <;>
      simp [auditFields_get_score, auditFields_get_summary,
        auditFields_get_color_palette, auditFields_get_design_flaws,
        auditFields_get_positive_aspects, auditFields_get_recommendations,
        h, JSValue.jsOr, JSValue.truthy]
  · intro r n s pa hsc hn1 hn2 hsum hsne hpa hcp hdf hrec
    have hn0 : n ≠ 0 := by omega
    simp [auditResultAiFields, hsc, hsum, hpa, hcp, hdf, hrec,
      JSValue.jsOr, JSValue.truthy, hn0, hsne]

/-- The mocked native-vision provider response of the end-to-end
scenario. -/
def mockNativeVisionResponse : JSObject :=
  [("score", .num 8), ("summary", .str "Good structure"),
    ("color_palette", .arr [.str "#FFFFFF"]), ("design_flaws", .arr []),
    ("positive_aspects", .arr [.str "Clear headings"]),
    ("recommendations", .arr [.str "Add meta description"])]

/-- A synthetic response missing exactly `color_palette`, `design_flaws`
and `recommendations`. -/
def partialResponse : JSObject :=
  [("score", .num 7), ("summary", .str "Decent layout"),
    ("positive_aspects", .arr [.str "Readable fonts"])]

/-- Witness for C5 at the concrete partial response. -/
theorem c5_normalization_defaults_witness :
    ("score" ∈ auditFieldKeys ∧
        hasKey (auditResultAiFields partialResponse) "score" = true) ∧
      (jget partialResponse "color_palette" = .undefined ∧
        jget (auditResultAiFields partialResponse) "color_palette" = .arr []) ∧
      auditResultAiFields partialResponse =
        [("score", .num 7), ("summary", .str "Decent layout"),
          ("color_palette", .arr []), ("design_flaws", .arr []),
          ("positive_aspects", .arr [.str "Readable fonts"]),
          ("recommendations", .arr [])] :=
  ⟨⟨by decide, c5_normalization_defaults.1 partialResponse "score" (by decide)⟩,
    ⟨rfl, (c5_normalization_defaults.2.1 partialResponse).2.2.1 rfl⟩,
    c5_normalization_defaults.2.2 partialResponse 7 "Decent layout"
      [.str "Readable fonts"] rfl (by norm_num) (by norm_num) rfl
      (by decide) rfl rfl rfl rfl⟩

/-- C6 (round-trip): a provider response containing all six required keys
with valid types (score a number in 1–10, summary a non-empty string, the
four list fields arrays) passes through the normalization step with all
six values unchanged — under the plain key names in the one record shape,
and under the renamed keys in the comprehensive record shape. -/
theorem c6_roundtrip (r : JSObject) (n : Int) (s : String)
    (cp df pa rec : List JSValue)
    (hsc : jget r "score" = .num n) (hn1 : 1 ≤ n) (hn2 : n ≤ 10)
    (hsum : jget r "summary" = .str s) (hsne : s ≠ "")
    (hcp : jget r "color_palette" = .arr cp)
    (hdf : jget r "design_flaws" = .arr df)
    (hpa : jget r "positive_aspects" = .arr pa)
    (hrec : jget r "recommendations" = .arr rec) :
    auditResultAiFields r =
      [("score", .num n), ("summary", .str s), ("color_palette", .arr cp),
        ("design_flaws", .arr df), ("positive_aspects", .arr pa),
        ("recommendations", .arr rec)] ∧
    comprehensiveAuditResultAiFields r =
      [("overall_score", .num n), ("ai_summary", .str s),
        ("color_palette", .arr cp), ("design_flaws", .arr df),
        ("positive_aspects", .arr pa), ("ai_recommendations", .arr rec)] := by
  have hn0 : n ≠ 0 := by omega
  constructor <;>
    simp [auditResultAiFields, comprehensiveAuditResultAiFields, hsc, hsum,
      hcp, hdf, hpa, hrec, JSValue.jsOr, JSValue.truthy, hn0, hsne]

/-- Witness for C6 at the mocked native-vision response of the end-to-end
scenario (score 8, summary `Good structure`, one palette entry, empty
design flaws, one positive aspect, one recommendation). -/
theorem c6_roundtrip_witness :
    (jget mockNativeVisionResponse "score" = .num 8 ∧ (1 : Int) ≤ 8 ∧
        (8 : Int) ≤ 10 ∧
        jget mockNativeVisionResponse "summary" = .str "Good structure" ∧
        "Good structure" ≠ "") ∧
      auditResultAiFields mockNativeVisionResponse =
        [("score", .num 8), ("summary", .str "Good structure"),
          ("color_palette", .arr [.str "#FFFFFF"]), ("design_flaws", .arr []),
          ("positive_aspects", .arr [.str "Clear headings"]),
          ("recommendations", .arr [.str "Add meta description"])] :=
  ⟨⟨rfl, by norm_num, by norm_num, rfl, by decide⟩,
    (c6_roundtrip mockNativeVisionResponse 8 "Good structure" [.str "#FFFFFF"]
      [] [.str "Clear headings"] [.str "Add meta description"] rfl
      (by norm_num) (by norm_num) rfl (by decide) rfl rfl rfl rfl).1⟩

/-- C7 counterexample: in the comprehensive record shape (the revision
shipping the dashboard), the record persisted for the end-to-end mocked
response carries no `score` or `summary` keys at all — those fields are
persisted as `overall_score` and `ai_summary`. -/
theorem c7_counterexample :
    hasKey (comprehensiveAuditResultAiFields mockNativeVisionResponse)
        "score" = false ∧
      hasKey (comprehensiveAuditResultAiFields mockNativeVisionResponse)
        "summary" = false ∧
      hasKey (comprehensiveAuditResultAiFields mockNativeVisionResponse)
        "overall_score" = true := by
  refine ⟨rfl, rfl, rfl⟩

/-- C7 (amended): the record of the revision persisting plain names uses
exactly the six key names `score`, `summary`, `color_palette`,
`design_flaws`, `positive_aspects`, `recommendations` for the AI-analysis
fields, while the comprehensive record of the dashboard revision persists
them under `overall_score`, `ai_summary`, `color_palette`, `design_flaws`,
`positive_aspects`, `ai_recommendations`. -/
theorem c7_audit_record_key_names (r : JSObject) :
    (auditResultAiFields r).map Prod.fst = auditFieldKeys ∧
      (comprehensiveAuditResultAiFields r).map Prod.fst =
        ["overall_score", "ai_summary", "color_palette", "design_flaws",
          "positive_aspects", "ai_recommendations"] :=
  ⟨rfl, rfl⟩

/-- C10: normalization replaces a field whenever its value is falsy, not
only when the key is absent: a present empty-string summary becomes the
placeholder, a present score of 0 stays 0 (via the default branch), and a
present empty array for any of the list fields is kept unchanged (arrays
are truthy). -/
theorem c10_falsy_values_replaced (r : JSObject) :
    (jget r "summary" = .str "" →
      jget (auditResultAiFields r) "summary" = .str "No summary available") ∧
    (jget r "score" = .num 0 →
      jget (auditResultAiFields r) "score" = .num 0) ∧
    (jget r "color_palette" = .arr [] →
      jget (auditResultAiFields r) "color_palette" = .arr []) ∧
    (jget r "design_flaws" = .arr [] →
      jget (auditResultAiFields r) "design_flaws" = .arr []) ∧
    (jget r "positive_aspects" = .arr [] →
      jget (auditResultAiFields r) "positive_aspects" = .arr []) ∧
    (jget r "recommendations" = .arr [] →
      jget (auditResultAiFields r) "recommendations" = .arr []) := by
  refine ⟨fun h => ?_, fun h => ?_, fun h => ?_, fun h => ?_, fun h => ?_,
    fun h => ?_⟩ <;>
    simp [auditFields_get_score, auditFields_get_summary,
      auditFields_get_color_palette, auditFields_get_design_flaws,
      auditFields_get_positive_aspects, auditFields_get_recommendations,
      h, JSValue.jsOr, JSValue.truthy]

/-- A response whose summary is present but empty, whose score is a
present 0, and whose list fields are present empty arrays. -/
def falsyResponse : JSObject :=
  [("score", .num 0), ("summary", .str ""), ("color_palette", .arr []),
    ("design_flaws", .arr []), ("positive_aspects", .arr []),
    ("recommendations", .arr [])]

/-- Witness for C10 at the concrete falsy response. -/
theorem c10_falsy_values_replaced_witness :
    (jget falsyResponse "summary" = .str "" ∧
        jget (auditResultAiFields falsyResponse) "summary" =
          .str "No summary available") ∧
      jget (auditResultAiFields falsyResponse) "score" = .num 0 ∧
      jget (auditResultAiFields falsyResponse) "color_palette" = .arr [] :=
  ⟨⟨rfl, (c10_falsy_values_replaced falsyResponse).1 rfl⟩,
    (c10_falsy_values_replaced falsyResponse).2.1 rfl,
    (c10_falsy_values_replaced falsyResponse).2.2.1 rfl⟩

/-- A malformed provider response body that is not valid JSON. -/
def malformedBody : String := "rate limit exceeded"

/-- The SyntaxError message of the pinned Node 20 platform `JSON.parse`
(the Dockerfile pins `apify/actor-node-playwright-chrome:20`) for the
body `rate limit exceeded`: V8 quotes a snippet of the malformed input in
the message, so the message itself contains the substring `rate limit`. -/
def node20ParseErrMsg : String :=
  "Unexpected token 'r', \"rate limit exceeded\" is not valid JSON"

/-- The Node 20 `JSON.parse` behaviour on the malformed body above:
always a SyntaxError whose message quotes the input. -/
def node20Parse : String → Except String JSValue :=
  fun _ => .error node20ParseErrMsg

/-- C4 counterexample: a provider whose response text does not parse as
JSON (here the body `rate limit exceeded`) is NOT always fatal without
retry: on the pinned Node 20 platform the parse-error message quotes the
body, the substring classifier sees `rate limit` in it, and the
chat-completion loop sleeps and calls the provider again — three calls in
all, ending in the exhaustion error, not in an unretried parse
failure. -/
theorem c4_counterexample :
    node20Parse malformedBody = .error node20ParseErrMsg ∧
      isRateLimitMsg node20ParseErrMsg = true ∧
      analyzeWithOpenAI node20Parse (fun _ => .content malformedBody) =
        { result := .error (.exhausted (transientFailureMsg node20ParseErrMsg)),
          calls := 3, sleepsMs := [2000, 4000, 8000] } :=
  ⟨rfl, by decide, rfl⟩
